import Mathlib

/-!
Verification development for the risk and signal decision core of a small
crypto trading harness (a moving-average crossover strategy with stop-loss
risk management).

The Python source is embedded shallowly:
* floats become rationals (ℚ);
* `None`-able values become `Option`;
* raising code returns `Except Err`; methods that mutate `self` and may
  raise return the mutated state paired with the `Except` result, so that
  partial mutation before an exception is modelled faithfully;
* dictionaries that the core reads only partially become structures holding
  exactly the fields that are read.
-/

/-- Exceptions raised by the core, distinguished by their Python message /
class.  `invalidState` is `ValueError("Need either a price or an active
position")`, `configError` is `ValueError("Trailing stop loss percentage not
configured")`, `insufficientData` is `ValueError("Insufficient data. ...")`,
`indexError` / `keyError` / `zeroDivision` are the builtin `IndexError`,
`KeyError` and `ZeroDivisionError`. -/
inductive Err where
  | invalidState
  | configError
  | insufficientData
  | indexError
  | keyError
  | zeroDivision
deriving DecidableEq, Repr

/-- Structure `StopLossConfig` from `src/risk/stop_loss_manager.py`. -/
structure StopLossConfig where
  fixed_stop_loss_pct : ℚ
  max_loss_pct : ℚ := 2
  trailing_stop_loss_pct : Option ℚ := none
  trailing_activation_pct : Option ℚ := none
deriving DecidableEq, Repr

/-- The position dict handed to `StopLossManager.start_position_tracking`.
The manager reads only `position['price']`, so only that field is kept. -/
structure TrackedPosition where
  price : ℚ
deriving DecidableEq, Repr

/-- The mutable state of `StopLossManager` (`__init__`): an empty position
dict becomes `none`. -/
structure StopLossManager where
  config : StopLossConfig
  position : Option TrackedPosition
  highest_price : ℚ
  stop_loss_price : ℚ
  trailing_active : Bool
deriving DecidableEq, Repr

/-- Constructor `StopLossManager.__init__(config)`. -/
def StopLossManager.init (config : StopLossConfig) : StopLossManager :=
  { config := config
    position := none
    highest_price := 0
    stop_loss_price := 0
    trailing_active := false }

/-- The arithmetic of `_calculate_fixed_stop_loss`:
`entry_price - entry_price * (fixed_stop_loss_pct / 100)`. -/
def fixedStopOf (config : StopLossConfig) (entry_price : ℚ) : ℚ :=
  entry_price - entry_price * (config.fixed_stop_loss_pct / 100)

/-- Method `StopLossManager._calculate_fixed_stop_loss(price)`: raises when called
with neither an explicit price nor an active position; otherwise the entry
price is the explicit price if given, else the tracked position's price. -/
def StopLossManager._calculate_fixed_stop_loss (m : StopLossManager)
    (price : Option ℚ) : Except Err ℚ :=
  match price, m.position with
  | none, none => .error .invalidState
  | some p, _ => .ok (fixedStopOf m.config p)
  | none, some pos => .ok (fixedStopOf m.config pos.price)

/-- Method `StopLossManager._calculate_trailing_stop_loss()`: raises `configError`
when no trailing percentage is configured, else
`highest_price - highest_price * (trailing_stop_loss_pct / 100)`. -/
def StopLossManager._calculate_trailing_stop_loss (m : StopLossManager) :
    Except Err ℚ :=
  match m.config.trailing_stop_loss_pct with
  | none => .error .configError
  | some t => .ok (m.highest_price - m.highest_price * (t / 100))

/-- Method `StopLossManager.start_position_tracking(position)`: stores the position,
resets `highest_price` to the entry price, recomputes the fixed stop and
clears the trailing latch.  Returns the new state and the initial stop. -/
def StopLossManager.start_position_tracking (m : StopLossManager)
    (position : TrackedPosition) : StopLossManager × Except Err ℚ :=
  let m1 := { m with position := some position, highest_price := position.price }
  match m1._calculate_fixed_stop_loss none with
  | .error e => (m1, .error e)  -- unreachable: the position was just stored
  | .ok stop =>
      ({ m1 with stop_loss_price := stop, trailing_active := false }, .ok stop)

/-- The dict returned by `StopLossManager.update`.  The no-position branch
returns a dict without the `trailing_active` / `highest_price` keys, so those
fields are `Option`s. -/
structure UpdateStatus where
  stop_price : ℚ
  stop_triggered : Bool
  trailing_active : Option Bool
  highest_price : Option ℚ
deriving DecidableEq, Repr

/-- First mutation step of `StopLossManager.update` (lines 64-78 of
`stop_loss_manager.py`): raise `highest_price` when the price made a new
high and, while doing so, activate the trailing latch when both trailing
parameters are configured and the profit reaches the activation threshold.
Computing `profit_pct` divides by the entry price, so a zero entry price
raises `ZeroDivisionError` there. -/
def trailingActivationStep (m : StopLossManager) (pos : TrackedPosition)
    (current_price : ℚ) : StopLossManager × Option Err :=
  if m.highest_price < current_price then
    let m1 := { m with highest_price := current_price }
    match m.trailing_active, m.config.trailing_stop_loss_pct,
        m.config.trailing_activation_pct with
    | false, some _, some act =>
        if pos.price = 0 then (m1, some .zeroDivision)
        else
          -- profit_pct = (current_price - entry) / entry * 100
          if act ≤ (current_price - pos.price) / pos.price * 100 then
            ({ m1 with trailing_active := true }, none)
          else (m1, none)
    | _, _, _ => (m1, none)
  else (m, none)

/-- Second mutation step of `StopLossManager.update` (lines 80-85): when the
trailing latch is set, recompute the trailing stop and adopt it only if it
exceeds the current stop. -/
def trailingStopStep (m : StopLossManager) : StopLossManager × Option Err :=
  if m.trailing_active then
    match m._calculate_trailing_stop_loss with
    | .error e => (m, some e)
    | .ok new_stop =>
        if m.stop_loss_price < new_stop then
          ({ m with stop_loss_price := new_stop }, none)
        else (m, none)
  else (m, none)

/-- Method `StopLossManager.update(current_price)`: neutral status when no position
is tracked; otherwise the two mutation steps above followed by the trigger
check `current_price <= stop_loss_price`. -/
def StopLossManager.update (m : StopLossManager) (current_price : ℚ) :
    StopLossManager × Except Err UpdateStatus :=
  match m.position with
  | none => (m, .ok ⟨0, false, none, none⟩)
  | some pos =>
      match trailingActivationStep m pos current_price with
      | (m1, some e) => (m1, .error e)
      | (m1, none) =>
          match trailingStopStep m1 with
          | (m2, some e) => (m2, .error e)
          | (m2, none) =>
              (m2, .ok ⟨m2.stop_loss_price,
                decide (current_price ≤ m2.stop_loss_price),
                some m2.trailing_active, some m2.highest_price⟩)

/-- Method `StopLossManager.calculate_max_position_size(balance, current_price)`:
the risk budget `balance * max_loss_pct / 100` divided by the distance to the
fixed stop (0 when that distance is non-positive).
`_calculate_fixed_stop_loss` is called with an explicit price here, so it
cannot raise, and the `.ok` value is `fixedStopOf`. -/
def StopLossManager.calculate_max_position_size (m : StopLossManager)
    (balance current_price : ℚ) : ℚ :=
  let max_loss := balance * (m.config.max_loss_pct / 100)
  let stop_price := fixedStopOf m.config current_price
  let price_to_stop := current_price - stop_price
  if price_to_stop ≤ 0 then 0 else max_loss / price_to_stop

/-- Signal types produced by the strategy: the strings 'buy', 'sell',
'hold'. -/
inductive SignalType where
  | buy
  | sell
  | hold
deriving DecidableEq, Repr

/-- Order sides: the strings 'buy' and 'sell' (the code only ever compares
the side against 'buy'). -/
inductive Side where
  | buy
  | sell
deriving DecidableEq, Repr

/-- The order dict passed to `update_position`: the fields the strategy
reads (`side`, `price`, `amount`, `datetime`). -/
structure Order where
  side : Side
  price : ℚ
  amount : ℚ
  datetime : ℤ
deriving DecidableEq, Repr

/-- The position dict built by `BaseStrategy.update_position` on a buy. -/
structure BasePosition where
  entry_price : ℚ
  size : ℚ
  timestamp : ℤ
deriving DecidableEq, Repr

/-- One OHLCV bar of market data.  The decision core reads only `timestamp`
and `close`; the `open`/`high`/`low`/`volume` fields are carried through the
DataFrame unread (and, being real market values, never NaN), so they are
omitted from the embedding. -/
structure Bar where
  timestamp : ℤ
  close : ℚ
deriving DecidableEq, Repr

/-- One row of the indicator DataFrame built by `_calculate_indicators`.
Indicator columns are NaN (here `none`) before their windows fill;
`crossover` is always a number because `np.where` substitutes 0 whenever the
sign-change condition is false (NaN comparisons are false). -/
structure IndicatorRow where
  timestamp : ℤ
  close : ℚ
  short_ma : Option ℚ
  long_ma : Option ℚ
  trend : Option ℚ
  ma_diff : Option ℚ
  crossover : ℚ
deriving DecidableEq, Repr

/-- Rolling simple moving average of window `w` at index `i` (pandas
`rolling(window=w).mean()`): defined once the window has filled. -/
def smaAt (w : ℕ) (closes : List ℚ) (i : ℕ) : Option ℚ :=
  if w ≤ i + 1 then some (((closes.drop (i + 1 - w)).take w).sum / w)
  else none

/-- Percentage change over `n` periods at index `i` (pandas
`pct_change(periods=n)`): NaN for the first `n` rows.  A zero base close
would make the source produce an IEEE infinity; prices of exactly 0 are
degenerate market data, and this embedding treats that cell as undefined. -/
def pctChangeAt (n : ℕ) (closes : List ℚ) (i : ℕ) : Option ℚ :=
  if n ≤ i ∧ closes.getD (i - n) 0 ≠ 0 then
    some ((closes.getD i 0 - closes.getD (i - n) 0) / closes.getD (i - n) 0)
  else none

/-- Column `ma_diff = short_ma - long_ma` (NaN when either MA is NaN). -/
def maDiffAt (short_window long_window : ℕ) (closes : List ℚ) (i : ℕ) :
    Option ℚ :=
  match smaAt short_window closes i, smaAt long_window closes i with
  | some s, some l => some (s - l)
  | _, _ => none

/-- Column `crossover = np.where(ma_diff * ma_diff.shift(1) < 0,
np.sign(ma_diff), 0)`.  At row 0 the shifted value is NaN, the comparison is
false and the result is 0; likewise whenever either factor is NaN.  A true
comparison forces `ma_diff` nonzero, so the sign is plus or minus 1. -/
def crossoverAt (short_window long_window : ℕ) (closes : List ℚ) (i : ℕ) :
    ℚ :=
  match i with
  | 0 => 0
  | j + 1 =>
      match maDiffAt short_window long_window closes (j + 1),
          maDiffAt short_window long_window closes j with
      | some a, some b =>
          if a * b < 0 then (if 0 < a then 1 else if a < 0 then -1 else 0)
          else 0
      | _, _ => 0

/-- Method `SimpleMovingAverageStrategy._calculate_indicators(market_data)`:
the DataFrame of input bars extended with the indicator columns. -/
def computeIndicators (short_window long_window : ℕ) (data : List Bar) :
    List IndicatorRow :=
  let closes := data.map (·.close)
  (List.range data.length).map fun i =>
    { timestamp := (data.getD i ⟨0, 0⟩).timestamp
      close := closes.getD i 0
      short_ma := smaAt short_window closes i
      long_ma := smaAt long_window closes i
      trend := pctChangeAt short_window closes i
      ma_diff := maDiffAt short_window long_window closes i
      crossover := crossoverAt short_window long_window closes i }

/-- Row predicate for `df.dropna()`: the indicator columns must all be
defined (`crossover`, `timestamp` and the OHLCV columns are always
defined). -/
def fullRow (r : IndicatorRow) : Bool :=
  r.short_ma.isSome && r.long_ma.isSome && r.trend.isSome && r.ma_diff.isSome

/-- Method `SimpleMovingAverageStrategy._detect_signal(df)`: hold on short
history, drop NaN rows, then decide from the last remaining row by
crossover first and strong agreeing trend second. -/
def detect_signal (long_window : ℕ) (df : List IndicatorRow) : SignalType :=
  if df.length < long_window + 1 then .hold
  else
    match (df.filter fun r => fullRow r).getLast? with
    | none => .hold
    | some last_row =>
        if 0 < last_row.crossover then .buy
        else if last_row.crossover < 0 then .sell
        else if 1 / 100 < |last_row.trend.getD 0| then
          -- strong_trend: abs(trend) > 0.01
          if 0 < last_row.trend.getD 0 ∧ 0 < last_row.ma_diff.getD 0 then .buy
          else if last_row.trend.getD 0 < 0 ∧ last_row.ma_diff.getD 0 < 0 then
            .sell
          else .hold
        else .hold

/-- The signal dict built by `generate_signals`.  Indicator fields come from
the last (unfiltered) row and may be NaN; the stop-loss fields are present
only when a position was open. -/
structure Signal where
  timestamp : ℤ
  type : SignalType
  price : ℚ
  short_ma : Option ℚ
  long_ma : Option ℚ
  trend : Option ℚ
  ma_diff : Option ℚ
  crossover : ℚ
  stop_loss_price : Option ℚ
  trailing_active : Option Bool
  highest_price : Option ℚ
deriving DecidableEq, Repr

/-- The state of a `SimpleMovingAverageStrategy`: the configured windows and
sizing percentage, the base-class `position`, and the stop-loss manager. -/
structure Strategy where
  short_window : ℕ
  long_window : ℕ
  position_size_pct : ℚ
  position : Option BasePosition
  stop_loss_manager : StopLossManager
deriving DecidableEq, Repr

/-- Method `SimpleMovingAverageStrategy.generate_signals(market_data)`:
insufficient-data check, indicator computation, signal detection, the
stop-loss override when a position is open, and assembly of the signal
dict.  When a position is open but the manager returned its neutral status,
reading the absent `trailing_active` key raises `KeyError`. -/
def Strategy.generate_signals (s : Strategy) (market_data : List Bar) :
    Strategy × Except Err Signal :=
  if market_data.length < s.long_window + 1 then (s, .error .insufficientData)
  else
    let df := computeIndicators s.short_window s.long_window market_data
    let signal_type := detect_signal s.long_window df
    match df.getLast? with
    | none => (s, .error .indexError)  -- unreachable: the length check passed
    | some last_row =>
        let current_price := last_row.close
        match s.position with
        | none =>
            (s, .ok ⟨last_row.timestamp, signal_type, current_price,
              last_row.short_ma, last_row.long_ma, last_row.trend,
              last_row.ma_diff, last_row.crossover, none, none, none⟩)
        | some _ =>
            match s.stop_loss_manager.update current_price with
            | (m1, .error e) => ({ s with stop_loss_manager := m1 }, .error e)
            | (m1, .ok st) =>
                let s1 := { s with stop_loss_manager := m1 }
                let signal_type :=
                  if st.stop_triggered then SignalType.sell else signal_type
                match st.trailing_active, st.highest_price with
                | some ta, some hp =>
                    (s1, .ok ⟨last_row.timestamp, signal_type, current_price,
                      last_row.short_ma, last_row.long_ma, last_row.trend,
                      last_row.ma_diff, last_row.crossover,
                      some st.stop_price, some ta, some hp⟩)
                | _, _ => (s1, .error .keyError)

/-- The two entries `calculate_position_size` reads from its signal dict.
The `price` field is `none` when the dict lacks a 'price' key. -/
structure SigView where
  type : SignalType
  price : Option ℚ
deriving DecidableEq, Repr

/-- Method `SimpleMovingAverageStrategy.calculate_position_size(signal,
balance)`: 0 for non-buy signals (returned before the price is read);
otherwise the smaller of the strategy allocation and the risk cap. -/
def Strategy.calculate_position_size (s : Strategy) (signal : SigView)
    (balance : ℚ) : Except Err ℚ :=
  if signal.type ≠ .buy then .ok 0
  else
    match signal.price with
    | none => .error .keyError
    | some price =>
        if price = 0 then .error .zeroDivision
        else
          let strategy_size := balance * s.position_size_pct / price
          let risk_size :=
            s.stop_loss_manager.calculate_max_position_size balance price
          .ok (min strategy_size risk_size)

/-- Method `SimpleMovingAverageStrategy.should_exit(market_data)`: false
without a position; otherwise read the last bar's close (an `IndexError` on
empty data), exit on a stop trigger, else exit on a strategy sell signal. -/
def Strategy.should_exit (s : Strategy) (market_data : List Bar) :
    Strategy × Except Err Bool :=
  match s.position with
  | none => (s, .ok false)
  | some _ =>
      match market_data.getLast? with
      | none => (s, .error .indexError)
      | some bar =>
          let current_price := bar.close
          match s.stop_loss_manager.update current_price with
          | (m1, .error e) => ({ s with stop_loss_manager := m1 }, .error e)
          | (m1, .ok st) =>
              let s1 := { s with stop_loss_manager := m1 }
              if st.stop_triggered then (s1, .ok true)
              else
                let df :=
                  computeIndicators s.short_window s.long_window market_data
                let signal := detect_signal s.long_window df
                (s1, .ok (signal = .sell))

/-- Method `SimpleMovingAverageStrategy.update_position(order)`: the base
class stores a position on a buy and clears it otherwise; the subclass
additionally starts stop-loss tracking on a buy (the manager reads only the
order's price). -/
def Strategy.update_position (s : Strategy) (order : Order) : Strategy :=
  let s1 :=
    if order.side = .buy then
      { s with position := some ⟨order.price, order.amount, order.datetime⟩ }
    else { s with position := none }
  if order.side = .buy then
    { s1 with stop_loss_manager :=
        (s1.stop_loss_manager.start_position_tracking ⟨order.price⟩).1 }
  else s1

/-- Iterated `update` calls: the manager state after feeding a list of
prices in order. -/
def updateSeq (m : StopLossManager) : List ℚ → StopLossManager
  | [] => m
  | p :: ps => updateSeq (m.update p).1 ps

/-- The trace of `stop_loss_price` values along a run of `update` calls:
the value before the first call, then after each call in turn. -/
def stopTrace (m : StopLossManager) : List ℚ → List ℚ
  | [] => [m.stop_loss_price]
  | p :: ps => m.stop_loss_price :: stopTrace (m.update p).1 ps

/-- The decision table of the specification for the latest fully-defined
bar (the spec side of the refinement claim about `generate_signals`):
crossover sign first, then a strong trend agreeing in sign with the MA
difference, else hold. -/
def specDecisionRule (r : IndicatorRow) : SignalType :=
  if 0 < r.crossover then .buy
  else if r.crossover < 0 then .sell
  else if 1 / 100 < |r.trend.getD 0| ∧ 0 < r.trend.getD 0 ∧ 0 < r.ma_diff.getD 0 then .buy
  else if 1 / 100 < |r.trend.getD 0| ∧ r.trend.getD 0 < 0 ∧ r.ma_diff.getD 0 < 0 then .sell
  else .hold

/-! Concrete fixtures used by witnesses and counterexamples. -/

/-- A trailing-enabled configuration (the basic config of the test suite). -/
def cfgW4 : StopLossConfig :=
  { fixed_stop_loss_pct := 2
    trailing_stop_loss_pct := some (3/2)
    trailing_activation_pct := some 1 }

/-- A manager tracking a position at 1000 whose trailing latch is set. -/
def mW4 : StopLossManager :=
  { config := cfgW4
    position := some ⟨1000⟩
    highest_price := 1015
    stop_loss_price := 999
    trailing_active := true }

/-- A freshly constructed manager with a 2 percent fixed stop. -/
def mW5 : StopLossManager := StopLossManager.init { fixed_stop_loss_pct := 2 }

/-- A fresh strategy: windows 5/10, 10 percent sizing, no position. -/
def stratW : Strategy :=
  { short_window := 5
    long_window := 10
    position_size_pct := 1/10
    position := none
    stop_loss_manager := StopLossManager.init { fixed_stop_loss_pct := 2 } }

/-- A second, different strategy state (open position, trailing manager). -/
def stratW2 : Strategy :=
  { short_window := 3
    long_window := 7
    position_size_pct := 1/2
    position := some ⟨1000, 1, 0⟩
    stop_loss_manager := mW4 }

/-- Three bars of market data for the windows-1/2 strategy. -/
def barsC2 : List Bar := [⟨1, 100⟩, ⟨2, 101⟩, ⟨3, 103⟩]

/-- The last indicator row of `computeIndicators 1 2 barsC2`. -/
def rowC2 : IndicatorRow := ⟨3, 103, some 103, some 102, some (2/101), some 1, 0⟩

/-- A position-less strategy with windows 1/2. -/
def stratC2 : Strategy :=
  { short_window := 1
    long_window := 2
    position_size_pct := 1/10
    position := none
    stop_loss_manager := StopLossManager.init { fixed_stop_loss_pct := 2 } }

/-- A manager tracking a position at 1000 with the fixed stop at 980 (the
state produced by starting tracking there), trailing not configured. -/
def mgr6 : StopLossManager :=
  { config := { fixed_stop_loss_pct := 2 }
    position := some ⟨1000⟩
    highest_price := 1000
    stop_loss_price := 980
    trailing_active := false }

/-- A strategy with an open position at 1000, backed by `mgr6`. -/
def strat6 : Strategy :=
  { short_window := 5
    long_window := 10
    position_size_pct := 1/10
    position := some ⟨1000, 1, 0⟩
    stop_loss_manager := mgr6 }

/-- The state of `stratW` after recording a buy order at 1000. -/
def strat7b : Strategy := stratW.update_position ⟨.buy, 1000, 1, 0⟩

/-- The state of `strat7b` after recording the closing sell order. -/
def strat7c : Strategy := strat7b.update_position ⟨.sell, 1100, 1, 1⟩

/-- Manager states reachable from a freshly constructed manager by any
sequence of tracking starts and updates (the configuration is fixed at
construction and never mutated). -/
inductive Reachable (cfg : StopLossConfig) : StopLossManager → Prop where
  | init : Reachable cfg (StopLossManager.init cfg)
  | start (m : StopLossManager) (pos : TrackedPosition) :
      Reachable cfg m → Reachable cfg (m.start_position_tracking pos).1
  | step (m : StopLossManager) (p : ℚ) :
      Reachable cfg m → Reachable cfg (m.update p).1

/-! Helper lemmas about the two mutation steps of the stop-loss update. -/

lemma tas_stop (m : StopLossManager) (pos : TrackedPosition) (p : ℚ) :
    (trailingActivationStep m pos p).1.stop_loss_price = m.stop_loss_price := by
  unfold trailingActivationStep
  repeat' split
  all_goals simp_all

lemma tas_config (m : StopLossManager) (pos : TrackedPosition) (p : ℚ) :
    (trailingActivationStep m pos p).1.config = m.config := by
  unfold trailingActivationStep
  repeat' split
  all_goals simp_all

lemma tas_position (m : StopLossManager) (pos : TrackedPosition) (p : ℚ) :
    (trailingActivationStep m pos p).1.position = m.position := by
  unfold trailingActivationStep
  repeat' split
  all_goals simp_all

lemma tas_active_mono (m : StopLossManager) (pos : TrackedPosition) (p : ℚ)
    (h : m.trailing_active = true) :
    (trailingActivationStep m pos p).1.trailing_active = true := by
  unfold trailingActivationStep
  repeat' split
  all_goals simp_all

lemma tas_active_imp (m : StopLossManager) (pos : TrackedPosition) (p : ℚ)
    (h : (trailingActivationStep m pos p).1.trailing_active = true) :
    m.trailing_active = true ∨ m.config.trailing_stop_loss_pct.isSome = true := by
  unfold trailingActivationStep at h
  revert h
  repeat' split
  all_goals simp_all

lemma tas_err (m : StopLossManager) (pos : TrackedPosition) (p : ℚ) (e : Err)
    (h : (trailingActivationStep m pos p).2 = some e) : e = .zeroDivision := by
  unfold trailingActivationStep at h
  revert h
  repeat' split
  all_goals simp_all

lemma tss_stop_le (m : StopLossManager) :
    m.stop_loss_price ≤ (trailingStopStep m).1.stop_loss_price := by
  cases ht : m.trailing_active <;>
    cases hc : m.config.trailing_stop_loss_pct <;>
    simp [trailingStopStep, StopLossManager._calculate_trailing_stop_loss, ht, hc]
  split <;> simp_all
  linarith

lemma tss_active (m : StopLossManager) :
    (trailingStopStep m).1.trailing_active = m.trailing_active := by
  cases ht : m.trailing_active <;>
    cases hc : m.config.trailing_stop_loss_pct <;>
    simp [trailingStopStep, StopLossManager._calculate_trailing_stop_loss, ht, hc]
  split <;> simp_all

lemma tss_config (m : StopLossManager) :
    (trailingStopStep m).1.config = m.config := by
  cases ht : m.trailing_active <;>
    cases hc : m.config.trailing_stop_loss_pct <;>
    simp [trailingStopStep, StopLossManager._calculate_trailing_stop_loss, ht, hc]
  split <;> simp_all

lemma tss_position (m : StopLossManager) :
    (trailingStopStep m).1.position = m.position := by
  cases ht : m.trailing_active <;>
    cases hc : m.config.trailing_stop_loss_pct <;>
    simp [trailingStopStep, StopLossManager._calculate_trailing_stop_loss, ht, hc]
  split <;> simp_all

lemma tss_err (m : StopLossManager) (e : Err)
    (h : (trailingStopStep m).2 = some e) :
    e = .configError ∧ m.trailing_active = true ∧
      m.config.trailing_stop_loss_pct = none := by
  cases ht : m.trailing_active <;>
    cases hc : m.config.trailing_stop_loss_pct <;>
    simp [trailingStopStep, StopLossManager._calculate_trailing_stop_loss, ht, hc] at h ⊢
  all_goals try split at h
  all_goals simp_all

/-! Helper lemmas about a single stop-loss update call. -/

lemma update_stop_mono (m : StopLossManager) (p : ℚ) :
    m.stop_loss_price ≤ (m.update p).1.stop_loss_price := by
  unfold StopLossManager.update
  split
  · exact le_rfl
  · rename_i pos hpos
    split
    · rename_i m1 e heq
      have h1 := tas_stop m pos p
      rw [heq] at h1
      simp_all
    · rename_i m1 heq
      have h1 := tas_stop m pos p
      rw [heq] at h1
      simp at h1
      split
      · rename_i m2 e2 heq2
        have h2 := tss_stop_le m1
        rw [heq2] at h2
        simp_all
      · rename_i m2 heq2
        have h2 := tss_stop_le m1
        rw [heq2] at h2
        simp_all

lemma update_active_mono (m : StopLossManager) (p : ℚ)
    (h : m.trailing_active = true) :
    (m.update p).1.trailing_active = true := by
  unfold StopLossManager.update
  split
  · exact h
  · rename_i pos hpos
    split
    · rename_i m1 e heq
      have h1 := tas_active_mono m pos p h
      rw [heq] at h1
      simpa using h1
    · rename_i m1 heq
      have h1 := tas_active_mono m pos p h
      rw [heq] at h1
      simp at h1
      split
      · rename_i m2 e2 heq2
        have h2 := tss_active m1
        rw [heq2] at h2
        simp_all
      · rename_i m2 heq2
        have h2 := tss_active m1
        rw [heq2] at h2
        simp_all

lemma update_config (m : StopLossManager) (p : ℚ) :
    (m.update p).1.config = m.config := by
  unfold StopLossManager.update
  split
  · rfl
  · rename_i pos hpos
    split
    · rename_i m1 e heq
      have h1 := tas_config m pos p
      rw [heq] at h1
      simpa using h1
    · rename_i m1 heq
      have h1 := tas_config m pos p
      rw [heq] at h1
      simp at h1
      split
      · rename_i m2 e2 heq2
        have h2 := tss_config m1
        rw [heq2] at h2
        simp_all
      · rename_i m2 heq2
        have h2 := tss_config m1
        rw [heq2] at h2
        simp_all

lemma update_active_imp (m : StopLossManager) (p : ℚ)
    (h : (m.update p).1.trailing_active = true) :
    m.trailing_active = true ∨ m.config.trailing_stop_loss_pct.isSome = true := by
  unfold StopLossManager.update at h
  revert h
  split
  · intro h; exact Or.inl h
  · rename_i pos hpos
    split
    · rename_i m1 e heq
      intro h
      refine tas_active_imp m pos p ?_
      rw [heq]
      simpa using h
    · rename_i m1 heq
      split
      · rename_i m2 e2 heq2
        intro h
        refine tas_active_imp m pos p ?_
        rw [heq]
        have h2 := tss_active m1
        rw [heq2] at h2
        simp_all
      · rename_i m2 heq2
        intro h
        refine tas_active_imp m pos p ?_
        rw [heq]
        have h2 := tss_active m1
        rw [heq2] at h2
        simp_all

lemma update_err_cases (m : StopLossManager) (p : ℚ) (e : Err)
    (h : (m.update p).2 = .error e) :
    e = .zeroDivision ∨ e = .configError := by
  unfold StopLossManager.update at h
  revert h
  split
  · intro h; simp at h
  · rename_i pos hpos
    split
    · rename_i m1 e1 heq
      intro h
      simp at h
      subst h
      exact Or.inl (tas_err m pos p e1 (by rw [heq]))
    · rename_i m1 heq
      split
      · rename_i m2 e2 heq2
        intro h
        simp at h
        subst h
        exact Or.inr (tss_err m1 e2 (by rw [heq2])).1
      · rename_i m2 heq2
        intro h
        simp at h

lemma update_configError_imp (m : StopLossManager) (p : ℚ)
    (h : (m.update p).2 = .error .configError) :
    m.trailing_active = true ∧ m.config.trailing_stop_loss_pct = none := by
  unfold StopLossManager.update at h
  revert h
  split
  · intro h; simp at h
  · rename_i pos hpos
    split
    · rename_i m1 e1 heq
      intro h
      simp at h
      have := tas_err m pos p e1 (by rw [heq])
      simp_all
    · rename_i m1 heq
      split
      · rename_i m2 e2 heq2
        intro h
        simp at h
        subst h
        have h3 := tss_err m1 .configError (by rw [heq2])
        have h4 := tas_active_imp m pos p (by rw [heq]; exact h3.2.1)
        have h5 := tas_config m pos p
        rw [heq] at h5
        simp at h5
        constructor
        · rcases h4 with h4 | h4
          · exact h4
          · rw [← h5] at h4
            rw [h3.2.2] at h4
            simp at h4
        · rw [← h5]
          exact h3.2.2
      · rename_i m2 heq2
        intro h
        simp at h

/-! Helper lemmas about traces, tracking starts and the indicator pipeline. -/

lemma stopTrace_head (m : StopLossManager) (ps : List ℚ) :
    (stopTrace m ps).head? = some m.stop_loss_price := by
  cases ps <;> simp [stopTrace]

lemma stopTrace_chain (m : StopLossManager) (ps : List ℚ) :
    List.Chain' (· ≤ ·) (stopTrace m ps) := by
  induction ps generalizing m with
  | nil => simp [stopTrace]
  | cons p ps ih =>
    rw [stopTrace]
    refine List.chain'_cons'.mpr ⟨?_, ih _⟩
    intro y hy
    rw [stopTrace_head] at hy
    simp at hy
    subst hy
    exact update_stop_mono m p

lemma start_trailing_false (m : StopLossManager) (pos : TrackedPosition) :
    (m.start_position_tracking pos).1.trailing_active = false := by
  unfold StopLossManager.start_position_tracking
    StopLossManager._calculate_fixed_stop_loss
  simp

lemma computeIndicators_length (sw lw : ℕ) (data : List Bar) :
    (computeIndicators sw lw data).length = data.length := by
  simp [computeIndicators]

lemma filter_getLast?_of_full {α : Type} (p : α → Bool) (x : α) (hp : p x = true) :
    ∀ (l : List α), l.getLast? = some x → (l.filter p).getLast? = some x := by
  intro l
  induction l with
  | nil => intro h; simp at h
  | cons a t ih =>
    intro h
    cases t with
    | nil =>
      simp at h
      subst h
      simp [List.filter_cons, hp]
    | cons b t2 =>
      rw [List.getLast?_cons_cons] at h
      have hrec := ih h
      by_cases hpa : p a = true
      · rw [show (a :: b :: t2).filter p = a :: ((b :: t2).filter p) by
          simp [List.filter_cons, hpa]]
        cases hf : (b :: t2).filter p with
        | nil => rw [hf] at hrec; simp at hrec
        | cons c u =>
          rw [hf] at hrec
          rw [List.getLast?_cons_cons]
          exact hrec
      · rw [show (a :: b :: t2).filter p = (b :: t2).filter p by
          simp [List.filter_cons, Bool.of_not_eq_true hpa]]
        exact hrec

lemma detect_short_hold (lw : ℕ) (df : List IndicatorRow)
    (h : df.length < lw + 1) : detect_signal lw df = .hold := by
  unfold detect_signal
  rw [if_pos h]

lemma detect_signal_eq_rule (lw : ℕ) (df : List IndicatorRow) (r : IndicatorRow)
    (hlen : lw + 1 ≤ df.length) (hlast : df.getLast? = some r)
    (hfull : fullRow r = true) :
    detect_signal lw df = specDecisionRule r := by
  unfold detect_signal specDecisionRule
  rw [if_neg (by omega)]
  rw [filter_getLast?_of_full (fun r => fullRow r) r hfull df hlast]
  split
  · rename_i heq; simp at heq
  · rename_i lr heq
    have : r = lr := by simpa using heq
    subst this
    split_ifs <;> first | rfl | tauto

lemma reachable_invariant (cfg : StopLossConfig) (m : StopLossManager)
    (h : Reachable cfg m) :
    m.trailing_active = true → m.config.trailing_stop_loss_pct.isSome = true := by
  induction h with
  | init => intro hx; simp [StopLossManager.init] at hx
  | start m pos _ ih =>
    intro hx
    rw [start_trailing_false m pos] at hx
    simp at hx
  | step m p _ ih =>
    intro hx
    rw [update_config m p]
    rcases update_active_imp m p hx with h1 | h1
    · exact ih h1
    · exact h1

/-! Claim theorems. -/

/-- C1: after a call to start_position_tracking, across any sequence of
successive update calls, the manager's stop_loss_price after each update is
greater than or equal to its value before that call: the stop price never
decreases for the life of the position. -/
theorem stop_price_never_decreases (m : StopLossManager)
    (pos : TrackedPosition) (ps : List ℚ) :
    List.Chain' (· ≤ ·) (stopTrace (m.start_position_tracking pos).1 ps) :=
  stopTrace_chain _ ps

/-- C2: on market data long enough for the window check whose last indicator
row is fully defined, generate_signals returns the decision-table signal
(crossover sign first, then a strong trend agreeing in sign with ma_diff,
else hold) when no position is open, and overrides the decision to sell
whenever the risk manager's update on the latest close reports a triggered
stop. -/
theorem generate_signals_decision (s : Strategy) (data : List Bar)
    (r : IndicatorRow)
    (hlen : s.long_window + 1 ≤ data.length)
    (hlast : (computeIndicators s.short_window s.long_window data).getLast? =
      some r)
    (hfull : fullRow r = true) :
    (s.position = none →
      (s.generate_signals data).2 = .ok ⟨r.timestamp, specDecisionRule r,
        r.close, r.short_ma, r.long_ma, r.trend, r.ma_diff, r.crossover,
        none, none, none⟩) ∧
    (∀ (p : BasePosition) (m1 : StopLossManager) (st : UpdateStatus)
        (ta : Bool) (hp : ℚ),
      s.position = some p →
      s.stop_loss_manager.update r.close = (m1, .ok st) →
      st.trailing_active = some ta → st.highest_price = some hp →
      (s.generate_signals data).2 = .ok ⟨r.timestamp,
        (if st.stop_triggered then .sell else specDecisionRule r), r.close,
        r.short_ma, r.long_ma, r.trend, r.ma_diff, r.crossover,
        some st.stop_price, some ta, some hp⟩) := by
  have hno : ¬ (data.length < s.long_window + 1) := by omega
  have hdet := detect_signal_eq_rule s.long_window
    (computeIndicators s.short_window s.long_window data) r
    (by rw [computeIndicators_length]; omega) hlast hfull
  constructor
  · intro hpos
    simp only [Strategy.generate_signals, hno, if_false, hlast, hdet, hpos]
  · intro p m1 st ta hp hpos hupd hta hhp
    simp only [Strategy.generate_signals, hno, if_false, hlast, hdet, hpos,
      hupd, hta, hhp]

/-- Witness for C2: a concrete position-less strategy with windows 1/2 on
three rising bars, whose last indicator row is fully defined; the returned
signal carries the decision-table type. -/
theorem generate_signals_decision_witness :
    (stratC2.generate_signals barsC2).2 = .ok ⟨rowC2.timestamp,
      specDecisionRule rowC2, rowC2.close, rowC2.short_ma, rowC2.long_ma,
      rowC2.trend, rowC2.ma_diff, rowC2.crossover, none, none, none⟩ :=
  (generate_signals_decision stratC2 barsC2 rowC2 (by decide)
    (by norm_num [computeIndicators, barsC2, stratC2, smaAt, pctChangeAt,
      maDiffAt, crossoverAt, List.range_succ, rowC2])
    (by rfl)).1 rfl

/-- C3: calculate_max_position_size returns 0 when the distance from the
current price down to its fixed stop is non-positive, and otherwise the
risk budget balance * max_loss_pct / 100 divided by that distance; in
particular, with both percentages at 2, a 10000 balance at price 1000 gives
size 10. -/
theorem max_position_size_formula :
    (∀ (m : StopLossManager) (balance current_price : ℚ),
      m.calculate_max_position_size balance current_price =
        if current_price - fixedStopOf m.config current_price ≤ 0 then 0
        else balance * (m.config.max_loss_pct / 100) /
          (current_price - fixedStopOf m.config current_price)) ∧
    (StopLossManager.init
        { fixed_stop_loss_pct := 2,
          max_loss_pct := 2 }).calculate_max_position_size 10000 1000 = 10 := by
  constructor
  · intro m b p
    rfl
  · norm_num [StopLossManager.calculate_max_position_size, StopLossManager.init,
      fixedStopOf]

/-- C4: the trailing latch is one-way: once trailing_active is true it stays
true across any further sequence of update calls, and only
start_position_tracking (beginning a new position) resets it to false. -/
theorem trailing_latch_one_way (m : StopLossManager) (ps : List ℚ)
    (pos : TrackedPosition) (h : m.trailing_active = true) :
    (updateSeq m ps).trailing_active = true ∧
    (m.start_position_tracking pos).1.trailing_active = false := by
  constructor
  · induction ps generalizing m with
    | nil => exact h
    | cons p ps ih => exact ih _ (update_active_mono m p h)
  · exact start_trailing_false m pos

/-- Witness for C4: a concrete trailing-active manager stays active across
two updates, and a fresh tracking start clears the latch. -/
theorem trailing_latch_one_way_witness :
    (updateSeq mW4 [1016, 990]).trailing_active = true ∧
    (mW4.start_position_tracking ⟨500⟩).1.trailing_active = false :=
  trailing_latch_one_way mW4 [1016, 990] ⟨500⟩ (by rfl)

/-- C5: for a positive entry price and a positive configured fixed stop
percentage, start_position_tracking returns exactly
price * (1 - fixed_stop_loss_pct / 100) and stores that value as the stop
loss price. -/
theorem start_tracking_stop_formula (m : StopLossManager)
    (pos : TrackedPosition) (hP : 0 < pos.price)
    (hf : 0 < m.config.fixed_stop_loss_pct) :
    (m.start_position_tracking pos).2 =
      .ok (pos.price * (1 - m.config.fixed_stop_loss_pct / 100)) ∧
    (m.start_position_tracking pos).1.stop_loss_price =
      pos.price * (1 - m.config.fixed_stop_loss_pct / 100) := by
  unfold StopLossManager.start_position_tracking
    StopLossManager._calculate_fixed_stop_loss
  simp [fixedStopOf]
  ring

/-- Witness for C5: starting at price 100 with a 2 percent fixed stop yields
exactly 98. -/
theorem start_tracking_stop_formula_witness :
    (mW5.start_position_tracking ⟨100⟩).2 = .ok (100 * (1 - 2 / 100)) ∧
    (mW5.start_position_tracking ⟨100⟩).1.stop_loss_price =
      100 * (1 - 2 / 100) :=
  start_tracking_stop_formula mW5 ⟨100⟩ (by norm_num)
    (by norm_num [mW5, StopLossManager.init])

/-- C8: in every manager state reachable from a fresh manager by tracking
starts and updates, an active trailing latch implies the trailing percentage
is configured, and consequently update never raises the ConfigError of the
trailing-stop computation. -/
theorem trailing_config_invariant (cfg : StopLossConfig)
    (m : StopLossManager) (p : ℚ) (h : Reachable cfg m) :
    (m.trailing_active = true → m.config.trailing_stop_loss_pct.isSome = true) ∧
    (m.update p).2 ≠ .error .configError := by
  refine ⟨reachable_invariant cfg m h, ?_⟩
  intro hc
  obtain ⟨h1, h2⟩ := update_configError_imp m p hc
  have h3 := reachable_invariant cfg m h h1
  rw [h2] at h3
  simp at h3

/-- Witness for C8: the freshly constructed manager is reachable and its
update does not raise ConfigError. -/
theorem trailing_config_invariant_witness :
    ((StopLossManager.init { fixed_stop_loss_pct := 2 }).update 5).2 ≠
      .error .configError :=
  (trailing_config_invariant { fixed_stop_loss_pct := 2 } _ 5 Reachable.init).2

/-- C9: update on a manager that tracks no position returns the neutral
status dict (stop price 0, not triggered, no trailing_active or
highest_price entries) and leaves the whole manager state unchanged. -/
theorem update_no_position_neutral (m : StopLossManager) (p : ℚ)
    (h : m.position = none) :
    m.update p = (m, .ok ⟨0, false, none, none⟩) := by
  unfold StopLossManager.update
  split
  · rfl
  · simp_all

/-- Witness for C9: a fresh manager updated at price 7 is unchanged and
reports the neutral status. -/
theorem update_no_position_neutral_witness :
    (StopLossManager.init { fixed_stop_loss_pct := 2 }).update 7 =
      (StopLossManager.init { fixed_stop_loss_pct := 2 },
        .ok ⟨0, false, none, none⟩) :=
  update_no_position_neutral _ 7 rfl

/-- C10: calculate_position_size returns 0 for every non-buy signal, for
every balance, independently of both the signal's price entry (even an
absent one) and the whole strategy/risk-manager state. -/
theorem non_buy_size_zero (s s' : Strategy) (t : SignalType) (p p' : Option ℚ)
    (b : ℚ) (h : t ≠ .buy) :
    s.calculate_position_size ⟨t, p⟩ b = .ok 0 ∧
    s.calculate_position_size ⟨t, p⟩ b = s'.calculate_position_size ⟨t, p'⟩ b := by
  unfold Strategy.calculate_position_size
  simp [h]

/-- Witness for C10: a sell signal without a price entry sizes to 0 on two
different strategy states. -/
theorem non_buy_size_zero_witness :
    stratW.calculate_position_size ⟨.sell, none⟩ 10000 = .ok 0 ∧
    stratW.calculate_position_size ⟨.sell, none⟩ 10000 =
      stratW2.calculate_position_size ⟨.sell, some 5⟩ 10000 :=
  non_buy_size_zero stratW stratW2 .sell none (some 5) 10000 (by decide)

lemma update_position_not_buy (s : Strategy) (order : Order)
    (h : order.side ≠ .buy) :
    s.update_position order = { s with position := none } := by
  unfold Strategy.update_position
  simp [h]

/-- C6 (amended): generate_signals raises InsufficientData exactly when
fewer than long_window + 1 bars are supplied; on every nonempty shorter
sequence with an open position whose risk update succeeds, should_exit does
not raise and returns precisely the stop-trigger flag (the detector degrades
to hold on short history, so no strategy sell can fire); the empty sequence
is excluded because there should_exit raises IndexError. -/
theorem insufficient_data_amended :
    (∀ (s : Strategy) (data : List Bar),
      (s.generate_signals data).2 = .error .insufficientData ↔
        data.length < s.long_window + 1) ∧
    (∀ (s : Strategy) (data : List Bar) (p : BasePosition) (bar : Bar)
        (m1 : StopLossManager) (st : UpdateStatus),
      s.position = some p → data.getLast? = some bar →
      data.length < s.long_window + 1 →
      s.stop_loss_manager.update bar.close = (m1, .ok st) →
      s.should_exit data = ({ s with stop_loss_manager := m1 },
        .ok st.stop_triggered)) ∧
    (∀ (s : Strategy) (data : List Bar), data.length < s.long_window + 1 →
      detect_signal s.long_window
        (computeIndicators s.short_window s.long_window data) = .hold) := by
  refine ⟨?_, ?_, ?_⟩
  · intro s data
    constructor
    · intro h
      by_contra hlt
      simp only [Strategy.generate_signals, hlt, if_false] at h
      split at h
      · simp at h
      · split at h
        · simp at h
        · split at h
          · rename_i m1 e heq
            simp at h
            rcases update_err_cases _ _ e (by rw [heq]) with h2 | h2 <;> simp_all
          · split at h
            · simp at h
            · simp at h
    · intro h
      simp [Strategy.generate_signals, h]
  · intro s data p bar m1 st hpos hbar hlen hupd
    simp only [Strategy.should_exit, hpos, hbar, hupd]
    by_cases ht : st.stop_triggered
    · simp [ht]
    · have hdet : detect_signal s.long_window
          (computeIndicators s.short_window s.long_window data) = .hold := by
        refine detect_short_hold _ _ ?_
        rw [computeIndicators_length]
        omega
      simp [ht, hdet]
  · intro s data h
    refine detect_short_hold _ _ ?_
    rw [computeIndicators_length]
    omega

/-- Witness for C6: an open position on a single bar (far less than the
window requirement) exits without raising, returning the untriggered stop
status. -/
theorem insufficient_data_amended_witness :
    strat6.should_exit [⟨1, 1000⟩] =
      ({ strat6 with stop_loss_manager := mgr6 }, .ok false) :=
  insufficient_data_amended.2.1 strat6 [⟨1, 1000⟩] ⟨1000, 1, 0⟩ ⟨1, 1000⟩
    mgr6 ⟨980, false, some false, some 1000⟩ rfl rfl (by decide)
    (by norm_num [strat6, mgr6, StopLossManager.update,
      trailingActivationStep, trailingStopStep])

/-- Counterexample to C6 as stated: on the empty bar sequence with an open
position, should_exit raises IndexError (reading the last bar) instead of
degrading to false. -/
theorem insufficient_data_claim_counterexample :
    (strat6.should_exit []).2 = .error .indexError := rfl

/-- C7 (amended): recording a sell order clears the strategy's own position
but leaves the stop-loss manager completely untouched, so the manager keeps
tracking the stale position instead of reverting to the neutral status. -/
theorem sell_leaves_manager_tracking (s : Strategy) (order : Order)
    (h : order.side = .sell) :
    s.update_position order = { s with position := none } :=
  update_position_not_buy s order (by rw [h]; decide)

/-- Witness for C7: a concrete sell order clears the position and changes
nothing else. -/
theorem sell_leaves_manager_tracking_witness :
    stratW.update_position ⟨.sell, 5, 5, 5⟩ = { stratW with position := none } :=
  sell_leaves_manager_tracking stratW ⟨.sell, 5, 5, 5⟩ rfl

/-- Counterexample to C7 as stated: after buying at 1000 and then selling,
the strategy's position is cleared, yet the manager still tracks the old
position, and its update at price 50 returns the full stale status (stop
980, triggered) rather than the neutral status. -/
theorem sell_not_neutral_counterexample :
    strat7c.position = none ∧
    strat7c.stop_loss_manager.position = some ⟨1000⟩ ∧
    (strat7c.stop_loss_manager.update 50).2 =
      .ok ⟨980, true, some false, some 1000⟩ ∧
    (strat7c.stop_loss_manager.update 50).2 ≠ .ok ⟨0, false, none, none⟩ := by
  have h7b : strat7b.stop_loss_manager =
      { config := { fixed_stop_loss_pct := 2 }
        position := some ⟨1000⟩
        highest_price := 1000
        stop_loss_price := 980
        trailing_active := false } := by
    norm_num [strat7b, stratW, Strategy.update_position, StopLossManager.init,
      StopLossManager.start_position_tracking,
      StopLossManager._calculate_fixed_stop_loss, fixedStopOf]
  have h7c : strat7c = { strat7b with position := none } :=
    update_position_not_buy strat7b _ (by decide)
  have hmgr : strat7c.stop_loss_manager =
      { config := { fixed_stop_loss_pct := 2 }
        position := some ⟨1000⟩
        highest_price := 1000
        stop_loss_price := 980
        trailing_active := false } := by
    rw [h7c]
    exact h7b
  refine ⟨by rw [h7c], ?_, ?_, ?_⟩
  · rw [hmgr]
  · rw [hmgr]
    norm_num [StopLossManager.update, trailingActivationStep, trailingStopStep]
  · rw [hmgr]
    norm_num [StopLossManager.update, trailingActivationStep, trailingStopStep]
